import Mathlib

/-!
Shallow embedding of the ably-js transport layer:
the transport lifecycle state machine and protocol-message dispatch
(src/common/lib/transport/transport.ts) and the fetch-based fallback
request executor (the unnamed fetchrequest source file).

Stateful TypeScript methods become explicit state-passing functions on a
`TransportState` record; side effects (event emission, sent control
messages, channel-message handoff) are collected as a list of `Output`
values; a thrown exception becomes a `fault` field carrying the message,
with the mutations performed before the throw preserved, as in JS.
Times and durations are `Int` (JS numbers used integrally here); JS
truthiness of a possibly-absent number is modelled explicitly.
-/

/-- Service error value (mirrors the ErrorInfo constructor arguments
used by the embedded code: message, code, statusCode). -/
structure ErrorInfo where
  message : String
  code : Option Int
  statusCode : Option Int
deriving DecidableEq, Repr

/-- Protocol message action tags (ProtocolMessage.Action). -/
inductive MsgAction where
  | HEARTBEAT
  | ACK
  | NACK
  | CONNECT
  | CONNECTED
  | DISCONNECT
  | DISCONNECTED
  | CLOSE
  | CLOSED
  | ERROR
  | ATTACH
  | ATTACHED
  | DETACH
  | DETACHED
  | PRESENCE
  | MESSAGE
  | SYNC
  | AUTH
deriving DecidableEq, Repr

/-- The connectionDetails object carried by a CONNECTED message.
`maxIdleInterval` is an optional JS number. -/
structure ConnectionDetails where
  maxIdleInterval : Option Int
deriving DecidableEq, Repr

/-- One protocol message; optional fields are absent (`none`) unless the
wire message carried them. -/
structure ProtocolMessage where
  action : MsgAction
  id : Option String := none
  channel : Option String := none
  connectionId : Option String := none
  msgSerial : Option Int := none
  count : Option Int := none
  error : Option ErrorInfo := none
  connectionDetails : Option ConnectionDetails := none
deriving DecidableEq, Repr

/-- JS truthiness of a possibly-absent number: absent and 0 are falsy. -/
def optIntTruthy (o : Option Int) : Bool := o.getD 0 != 0

/-- Observable effects of a transport operation: events emitted on the
EventEmitter, control messages sent to the peer, messages handed off to
the connection manager, and auth re-authorization requests. -/
inductive Output where
  | emit (name : String) (err : Option ErrorInfo)
  | emitHeartbeat (id : Option String)
  | emitConnected (err : Option ErrorInfo) (connectionId : Option String)
  | emitAck (serial : Option Int) (count : Option Int)
  | emitNack (serial : Option Int) (count : Option Int) (err : Option ErrorInfo)
  | emitSync (connectionId : String)
  | send (action : MsgAction)
  | channelMessage (m : ProtocolMessage)
  | authorize
deriving DecidableEq, Repr

/-- Whether an output is an event emission (as opposed to a peer send,
channel handoff, or auth call). -/
def Output.isEmit : Output → Bool
  | .emit _ _ => true
  | .emitHeartbeat _ => true
  | .emitConnected _ _ => true
  | .emitAck _ _ => true
  | .emitNack _ _ _ => true
  | .emitSync _ => true
  | .send _ => false
  | .channelMessage _ => false
  | .authorize => false

/-- Mutable state of one Transport instance, plus the piece of shared
connection-manager state it writes (`cmLastActivity`) and the immutable
timeout configuration it reads. -/
structure TransportState where
  isConnected : Bool
  isFinished : Bool
  isDisposed : Bool
  maxIdleInterval : Option Int
  idleTimer : Option Int
  lastActivity : Option Int
  cmLastActivity : Option Int
  listenersOff : Bool
  realtimeRequestTimeout : Int
deriving DecidableEq, Repr

/-- State right after the constructor ran (flags false, monitor fields
null), for a given timeout configuration. -/
def initialState (rt : Int) : TransportState :=
  { isConnected := false
    isFinished := false
    isDisposed := false
    maxIdleInterval := none
    idleTimer := none
    lastActivity := none
    cmLastActivity := none
    listenersOff := false
    realtimeRequestTimeout := rt }

/-- Result of one transport operation: the state afterwards, the outputs
produced, and the message of a thrown exception when one escaped. -/
structure StepResult where
  state : TransportState
  outputs : List Output
  fault : Option String := none
deriving DecidableEq, Repr

/-- Modelled from the spec: the generic orderly-close error value
(`ConnectionErrors.closed`, defined in connectionerrors.ts which is not
among the provided sources); the spec describes orderly termination as
surfaced via `closed` with no error or a benign one, and `close()` as
passing this generic value to `finish`. -/
def ConnectionErrors.closed : ErrorInfo :=
  { message := "Connection closed", code := some 80017, statusCode := some 400 }

/-- Modelled from the spec: the generic recoverable-disconnect error
value (`ConnectionErrors.disconnected`), used when `disconnect` is
called with no error of its own. -/
def ConnectionErrors.disconnected : ErrorInfo :=
  { message := "Connection to server temporarily unavailable", code := some 80003, statusCode := some 503 }

/-- Modelled from the spec: the generic fatal-failure error value
(`ConnectionErrors.failed`), used when `fail` is called with no error of
its own. -/
def ConnectionErrors.failed : ErrorInfo :=
  { message := "Connection failed", code := some 80000, statusCode := some 402 }

/-- `dispose()`: marks disposed and detaches all listeners (`off()`). -/
def Transport.dispose (s : TransportState) : StepResult :=
  ⟨{ s with isDisposed := true, listenersOff := true }, [], none⟩

/-- `finish(event, err)`: no-op when already finished; otherwise marks
finished and not-connected, clears the idle monitor, emits the outcome
event with the error, then disposes. -/
def Transport.finish (s : TransportState) (event : String) (err : Option ErrorInfo) : StepResult :=
  if s.isFinished then ⟨s, [], none⟩
  else
    let s1 := { s with isFinished := true, isConnected := false,
                       maxIdleInterval := none, idleTimer := none }
    ⟨(Transport.dispose s1).state, [.emit event err], none⟩

/-- `close()`: requests an orderly close from the peer when connected,
then finishes with outcome closed and the generic closed error. -/
def Transport.close (s : TransportState) : StepResult :=
  let sends := if s.isConnected then [Output.send .CLOSE] else []
  let r := Transport.finish s "closed" (some ConnectionErrors.closed)
  ⟨r.state, sends ++ r.outputs, r.fault⟩

/-- `disconnect(err?)`: requests a disconnect from the peer when
connected, then finishes with outcome disconnected and the given error
or the generic disconnected error. -/
def Transport.disconnect (s : TransportState) (err : Option ErrorInfo) : StepResult :=
  let sends := if s.isConnected then [Output.send .DISCONNECT] else []
  let r := Transport.finish s "disconnected" (some (err.getD ConnectionErrors.disconnected))
  ⟨r.state, sends ++ r.outputs, r.fault⟩

/-- `fail(err)`: requests a disconnect from the peer when connected,
then finishes with outcome failed and the given error or the generic
failed error. -/
def Transport.fail (s : TransportState) (err : Option ErrorInfo) : StepResult :=
  let sends := if s.isConnected then [Output.send .DISCONNECT] else []
  let r := Transport.finish s "failed" (some (err.getD ConnectionErrors.failed))
  ⟨r.state, sends ++ r.outputs, r.fault⟩

/-- `setIdleTimer(timeout)`: arms the idle timer only when none is
pending; the pending timer is abstracted by the duration it was armed
with. -/
def Transport.setIdleTimer (s : TransportState) (timeout : Int) : TransportState :=
  if s.idleTimer = none then { s with idleTimer := some timeout } else s

/-- `onActivity()`: no-op unless `maxIdleInterval` is truthy; otherwise
stamps the current time locally and on the connection manager and arms
the idle timer for `maxIdleInterval + 100`. -/
def Transport.onActivity (s : TransportState) (now : Int) : TransportState :=
  if optIntTruthy s.maxIdleInterval then
    let s1 := { s with lastActivity := some now, cmLastActivity := some now }
    Transport.setIdleTimer s1 (s.maxIdleInterval.getD 0 + 100)
  else s

/-- The idle-timeout error built by `onIdleTimerExpire`. -/
def noActivityError (sinceLast : Int) : ErrorInfo :=
  { message := "No activity seen from realtime in " ++ toString sinceLast
      ++ "ms; assuming connection has dropped"
    code := some 80003
    statusCode := some 408 }

/-- `onIdleTimerExpire()`: throws when the activity baseline or the idle
interval is unset; otherwise drops the fired timer handle and either
disconnects (no activity within the idle interval) or re-arms for the
remaining time plus slack. -/
def Transport.onIdleTimerExpire (s : TransportState) (now : Int) : StepResult :=
  if !optIntTruthy s.lastActivity || !optIntTruthy s.maxIdleInterval then
    ⟨s, [], some "Transport.onIdleTimerExpire(): lastActivity/maxIdleInterval not set"⟩
  else
    let s1 := { s with idleTimer := none }
    let sinceLast := now - s.lastActivity.getD 0
    let timeRemaining := s.maxIdleInterval.getD 0 - sinceLast
    if timeRemaining ≤ 0 then
      Transport.disconnect s1 (some (noActivityError sinceLast))
    else
      ⟨Transport.setIdleTimer s1 (timeRemaining + 100), [], none⟩

/-- `onConnect(message)`: marks connected, throws when the CONNECTED
message has no connectionDetails, and when the promised idle interval is
truthy records the negotiated idle bound and an activity tick. Returns
the updated state and the thrown message, if any. -/
def Transport.onConnect (s : TransportState) (m : ProtocolMessage) (now : Int) :
    TransportState × Option String :=
  let s1 := { s with isConnected := true }
  match m.connectionDetails with
  | none => (s1, some "Transport.onConnect(): Connect message recieved without connectionDetails")
  | some cd =>
    let maxPromisedIdle := cd.maxIdleInterval.getD 0
    if maxPromisedIdle != 0 then
      let s2 := { s1 with maxIdleInterval := some (maxPromisedIdle + s.realtimeRequestTimeout) }
      (Transport.onActivity s2 now, none)
    else (s1, none)

/-- `onClose(message)`: peer-initiated orderly close. -/
def Transport.onClose (s : TransportState) (m : ProtocolMessage) : StepResult :=
  Transport.finish s "closed" m.error

/-- `onDisconnect(message)`: peer-initiated recoverable disconnect. -/
def Transport.onDisconnect (s : TransportState) (m : ProtocolMessage) : StepResult :=
  Transport.finish s "disconnected" m.error

/-- `onFatalError(message)`: peer-reported fatal connection error. -/
def Transport.onFatalError (s : TransportState) (m : ProtocolMessage) : StepResult :=
  Transport.finish s "failed" m.error

/-- `ping(id)`: sends a HEARTBEAT control message. -/
def Transport.ping (s : TransportState) (_id : Option String) : StepResult :=
  ⟨s, [.send .HEARTBEAT], none⟩

/-- `connect()`: overridable hook, a no-op at this layer. -/
def Transport.connect (s : TransportState) : StepResult := ⟨s, [], none⟩

/-- `onProtocolMessage(message)`: records activity, then dispatches by
action; channel-scoped messages are handed to the connection manager. -/
def Transport.onProtocolMessage (s : TransportState) (m : ProtocolMessage) (now : Int) :
    StepResult :=
  let s0 := Transport.onActivity s now
  match m.action with
  | .HEARTBEAT => ⟨s0, [.emitHeartbeat m.id], none⟩
  | .CONNECTED =>
    let r := Transport.onConnect s0 m now
    match r.2 with
    | some f => ⟨r.1, [], some f⟩
    | none => ⟨r.1, [.emitConnected m.error m.connectionId], none⟩
  | .CLOSED => Transport.onClose s0 m
  | .DISCONNECTED => Transport.onDisconnect s0 m
  | .ACK => ⟨s0, [.emitAck m.msgSerial m.count], none⟩
  | .NACK => ⟨s0, [.emitNack m.msgSerial m.count m.error], none⟩
  | .SYNC =>
    match m.connectionId with
    | some cid => ⟨s0, [.emitSync cid], none⟩
    | none => ⟨s0, [.channelMessage m], none⟩
  | .AUTH => ⟨s0, [.authorize], none⟩
  | .ERROR =>
    match m.channel with
    | none => Transport.onFatalError s0 m
    | some _ => ⟨s0, [.channelMessage m], none⟩
  | _ => ⟨s0, [.channelMessage m], none⟩

/-! ## Fallback request executor (fetchRequest) -/

/-- Whether `pat` is a leading segment of the character list. -/
def charsLeading : List Char → List Char → Bool
  | [], _ => true
  | _ :: _, [] => false
  | p :: ps, c :: cs => p == c && charsLeading ps cs

/-- Whether `pat` occurs contiguously in the character list. -/
def charsContain (pat : List Char) : List Char → Bool
  | [] => charsLeading pat []
  | c :: cs => charsLeading pat (c :: cs) || charsContain pat cs

/-- Substring check mirroring a JS `indexOf(pat) > -1` test. -/
def containsSubstr (s pat : String) : Bool := charsContain pat.data s.data

/-- JS truthiness of a possibly-absent string (a `Headers.get` result):
null and the empty string are falsy. -/
def optStrTruthy (o : Option String) : Bool := o.getD "" != ""

/-- The body of a response after the single decode path chosen from the
declared content type: an array buffer, a parsed JSON value (of which
only an optional embedded error object is relevant here), or text. -/
inductive DecodedBody where
  | buffer
  | jsonBody (error : Option ErrorInfo)
  | text (s : String)
deriving DecidableEq, Repr

/-- One observable response as the executor sees it: HTTP status, the
declared content type and service error-code headers, the error object
embedded in the body when the body is JSON carrying one, and the
readable rendering `inspect(body)` used in the generic error message. -/
structure FetchResponse where
  status : Int
  contentType : Option String
  xAblyErrorcode : Option String
  bodyError : Option ErrorInfo
  bodyRender : String
deriving DecidableEq, Repr

/-- `res.ok` per the fetch specification: status in the 2xx range. -/
def FetchResponse.ok (r : FetchResponse) : Bool := 200 ≤ r.status && r.status < 300

/-- The decode path taken for a response: array buffer for a declared
binary-packed content type, JSON for a declared JSON content type, text
otherwise. -/
def decodeBody (r : FetchResponse) : DecodedBody :=
  if optStrTruthy r.contentType && containsSubstr (r.contentType.getD "") "application/x-msgpack" then
    .buffer
  else if optStrTruthy r.contentType && containsSubstr (r.contentType.getD "") "application/json" then
    .jsonBody r.bodyError
  else .text r.bodyRender

/-- The error object a decoded body embeds, when it is JSON carrying
one (`responseBody.error` is undefined on the other decode paths). -/
def DecodedBody.embeddedError : DecodedBody → Option ErrorInfo
  | .jsonBody e => e
  | _ => none

/-- `isAblyError(responseBody, headers)`: the service error-code header
is present (and truthy). -/
def isAblyError (r : FetchResponse) : Bool := optStrTruthy r.xAblyErrorcode

/-- `getAblyError(responseBody, headers)`: when the service error-code
header is present, the error object embedded in the body (absent when
the body carries none); otherwise nothing. -/
def getAblyError (body : DecodedBody) (r : FetchResponse) : Option ErrorInfo :=
  if isAblyError r then body.embeddedError else none

/-- The packed flag: a content type was declared and it is not the
binary-packed one. -/
def packedFlag (r : FetchResponse) : Bool :=
  optStrTruthy r.contentType && !containsSubstr (r.contentType.getD "") "application/x-msgpack"

/-- The generic non-2xx error synthesized when no service error code is
available. -/
def genericServerError (r : FetchResponse) : ErrorInfo :=
  { message := "Error response received from server: " ++ toString r.status
      ++ " body was: " ++ r.bodyRender
    code := none
    statusCode := some r.status }

/-- The request-timed-out error reported when the timeout fires. -/
def requestTimedOutError : ErrorInfo :=
  { message := "Request timed out", code := none, statusCode := some 408 }

/-- One invocation of the executor callback: either an error alone
(timeout, network failure, abort) or an error-or-null together with the
decoded body, the packed flag and the HTTP status. -/
inductive CallbackInvocation where
  | errOnly (err : ErrorInfo)
  | withResponse (err : Option ErrorInfo) (body : DecodedBody) (packed : Bool) (status : Int)
deriving DecidableEq, Repr

/-- How one fetchRequest run resolves: the timeout fires first (the
subsequent abort makes the fetch promise reject with `abortErr`), the
fetch rejects on its own before the timeout, or a response arrives
before the timeout. -/
inductive FetchOutcome where
  | timeout (abortErr : ErrorInfo)
  | networkError (err : ErrorInfo)
  | response (r : FetchResponse)
deriving DecidableEq, Repr

/-- The observable trace of one fetchRequest run: the callback
invocations in order, how many times the abort controller fired, and
whether the timeout was disarmed before it could fire. -/
structure FetchResult where
  callbacks : List CallbackInvocation
  abortCount : Nat
  timerDisarmedBeforeFire : Bool
deriving DecidableEq, Repr

/-- The response-processing continuation of fetchRequest: decode by
content type, compute the packed flag, and report either the extracted
or synthesized error (non-2xx) or success. -/
def processResponse (r : FetchResponse) : CallbackInvocation :=
  let body := decodeBody r
  let packed := packedFlag r
  if !r.ok then
    let err := (getAblyError body r).getD (genericServerError r)
    .withResponse (some err) body packed r.status
  else
    .withResponse none body packed r.status

/-- One complete fetchRequest run for a given resolution of the race
between the timeout and the fetch promise. On timeout: the handler
aborts and reports the 408 error, then the abort-induced rejection
reaches the catch handler, which clears the (already fired) timer and
invokes the callback again. On rejection or response: the timer is
cleared first, then the callback runs once. -/
def fetchRequest (outcome : FetchOutcome) : FetchResult :=
  match outcome with
  | .timeout abortErr =>
    { callbacks := [.errOnly requestTimedOutError, .errOnly abortErr]
      abortCount := 1
      timerDisarmedBeforeFire := false }
  | .networkError err =>
    { callbacks := [.errOnly err]
      abortCount := 0
      timerDisarmedBeforeFire := true }
  | .response r =>
    { callbacks := [processResponse r]
      abortCount := 0
      timerDisarmedBeforeFire := true }

/-! ## Helper lemmas -/

theorem onActivity_isFinished (s : TransportState) (now : Int) :
    (Transport.onActivity s now).isFinished = s.isFinished := by
  unfold Transport.onActivity Transport.setIdleTimer
  dsimp only
  split
  · split <;> rfl
  · rfl

theorem onActivity_isDisposed (s : TransportState) (now : Int) :
    (Transport.onActivity s now).isDisposed = s.isDisposed := by
  unfold Transport.onActivity Transport.setIdleTimer
  dsimp only
  split
  · split <;> rfl
  · rfl

theorem onActivity_isConnected (s : TransportState) (now : Int) :
    (Transport.onActivity s now).isConnected = s.isConnected := by
  unfold Transport.onActivity Transport.setIdleTimer
  dsimp only
  split
  · split <;> rfl
  · rfl

/-! ## Claims about the transport lifecycle -/

/-- C1: finish is idempotent. On a transport already finished (with the
idle monitor cleared, as finish leaves it), finish itself, close,
disconnect, fail, and the processing of a peer CLOSED, DISCONNECTED or
channel-less ERROR message leave the state unchanged, emit no event and
re-arm no timer (close/disconnect/fail may still send a control message
when the zombie state claims to be connected). On the first call, finish
marks finished and not-connected, clears maxIdleInterval and the idle
timer, emits exactly one named outcome event with the error, and
disposes. -/
theorem c1_finish_idempotent (s : TransportState) (ev : String)
    (err e : Option ErrorInfo) (m : ProtocolMessage) (now : Int) :
    (s.isFinished = true → s.maxIdleInterval = none →
      Transport.finish s ev err = ⟨s, [], none⟩ ∧
      Transport.close s = ⟨s, if s.isConnected then [Output.send .CLOSE] else [], none⟩ ∧
      Transport.disconnect s e = ⟨s, if s.isConnected then [Output.send .DISCONNECT] else [], none⟩ ∧
      Transport.fail s e = ⟨s, if s.isConnected then [Output.send .DISCONNECT] else [], none⟩ ∧
      ((m.action = .CLOSED ∨ m.action = .DISCONNECTED ∨ (m.action = .ERROR ∧ m.channel = none)) →
        Transport.onProtocolMessage s m now = ⟨s, [], none⟩)) ∧
    (s.isFinished = false →
      Transport.finish s ev err =
        ⟨{ s with isFinished := true, isConnected := false, maxIdleInterval := none,
                  idleTimer := none, isDisposed := true, listenersOff := true },
         [.emit ev err], none⟩) := by
  constructor
  · intro hF hM
    have hact : Transport.onActivity s now = s := by
      simp [Transport.onActivity, optIntTruthy, hM]
    refine ⟨?_, ?_, ?_, ?_, ?_⟩
    · simp [Transport.finish, hF]
    · simp [Transport.close, Transport.finish, hF]
    · simp [Transport.disconnect, Transport.finish, hF]
    · simp [Transport.fail, Transport.finish, hF]
    · rintro (h | h | ⟨h, hch⟩)
      · simp [Transport.onProtocolMessage, h, hact, Transport.onClose, Transport.finish, hF]
      · simp [Transport.onProtocolMessage, h, hact, Transport.onDisconnect, Transport.finish, hF]
      · simp [Transport.onProtocolMessage, h, hch, hact, Transport.onFatalError,
              Transport.finish, hF]
  · intro hF
    simp [Transport.finish, Transport.dispose, hF]

/-- Witness for C1: a transport finished from the initial state stays
silent under close; a fresh transport finishes with exactly one event. -/
theorem c1_finish_idempotent_witness :
    Transport.close ((Transport.finish (initialState 0) "closed" none).state)
      = ⟨(Transport.finish (initialState 0) "closed" none).state, [], none⟩ ∧
    Transport.finish (initialState 0) "disconnected" none
      = ⟨{ isConnected := false, isFinished := true, isDisposed := true,
           maxIdleInterval := none, idleTimer := none, lastActivity := none,
           cmLastActivity := none, listenersOff := true, realtimeRequestTimeout := 0 },
         [.emit "disconnected" none], none⟩ := by
  constructor
  · have h := (c1_finish_idempotent ((Transport.finish (initialState 0) "closed" none).state)
      "closed" none none { action := .CLOSED } 0).1 rfl rfl
    simpa using h.2.1
  · exact (c1_finish_idempotent (initialState 0) "disconnected" none none
      { action := .CLOSED } 0).2 rfl

/-- C2: an inbound ERROR message with no channel field makes the
transport run onFatalError (finishing with outcome failed and the
message's error when not already finished) and is not handed to the
channel-message handler; an ERROR message with a channel field is handed
unmodified to the channel-message handler and triggers no state change
beyond the activity tick. -/
theorem c2_error_dispatch (s : TransportState) (m : ProtocolMessage) (now : Int)
    (hact : m.action = .ERROR) :
    (m.channel = none →
      Transport.onProtocolMessage s m now
        = Transport.onFatalError (Transport.onActivity s now) m ∧
      (∀ o ∈ (Transport.onProtocolMessage s m now).outputs, o ≠ Output.channelMessage m) ∧
      (s.isFinished = false →
        (Transport.onProtocolMessage s m now).outputs = [Output.emit "failed" m.error] ∧
        (Transport.onProtocolMessage s m now).state.isFinished = true)) ∧
    (∀ c, m.channel = some c →
      (Transport.onProtocolMessage s m now).outputs = [Output.channelMessage m] ∧
      (Transport.onProtocolMessage s m now).state = Transport.onActivity s now) := by
  constructor
  · intro hch
    have hFin : (Transport.onActivity s now).isFinished = s.isFinished :=
      onActivity_isFinished s now
    refine ⟨?_, ?_, ?_⟩
    · simp [Transport.onProtocolMessage, hact, hch]
    · intro o ho
      simp only [Transport.onProtocolMessage, hact, hch, Transport.onFatalError,
        Transport.finish] at ho
      by_cases hF : (Transport.onActivity s now).isFinished
      · simp [hF] at ho
      · simp [hF] at ho
        simp [ho]
    · intro hF
      have hF0 : (Transport.onActivity s now).isFinished = false := by rw [hFin]; exact hF
      constructor
      · simp [Transport.onProtocolMessage, hact, hch, Transport.onFatalError,
          Transport.finish, hF0]
      · simp [Transport.onProtocolMessage, hact, hch, Transport.onFatalError,
          Transport.finish, hF0, Transport.dispose]
  · intro c hch
    constructor
    · simp [Transport.onProtocolMessage, hact, hch]
    · simp [Transport.onProtocolMessage, hact, hch]

/-- Witness for C2: a channel-less ERROR on a fresh transport emits the
failed outcome; an ERROR scoped to channel ch is handed off. -/
theorem c2_error_dispatch_witness :
    (Transport.onProtocolMessage (initialState 0) { action := .ERROR } 0).outputs
      = [Output.emit "failed" none] ∧
    (Transport.onProtocolMessage (initialState 0)
        { action := .ERROR, channel := some "ch" } 0).outputs
      = [Output.channelMessage { action := .ERROR, channel := some "ch" }] := by
  constructor
  · exact (((c2_error_dispatch (initialState 0) { action := .ERROR } 0 rfl).1 rfl).2.2 rfl).1
  · exact ((c2_error_dispatch (initialState 0)
      { action := .ERROR, channel := some "ch" } 0 rfl).2 "ch" rfl).1

/-- C3 counterexample: on a freshly constructed transport, close()
emits the closed outcome carrying the generic connection-closed error,
not a missing error: the claim that close finishes with outcome closed
carrying no error fails. -/
theorem c3_close_counterexample :
    (Transport.close (initialState 0)).outputs
      = [Output.emit "closed" (some ConnectionErrors.closed)] ∧
    ∀ o ∈ (Transport.close (initialState 0)).outputs, o ≠ Output.emit "closed" none := by
  constructor
  · rfl
  · decide

/-- C3 (amended): close() sends a CLOSE control message to the peer if
and only if the transport is currently connected, and in all cases calls
finish with outcome closed carrying the generic connection-closed error;
when the transport was not already finished this emits the closed event
with that error. -/
theorem c3_close_behaviour (s : TransportState) :
    ((Output.send .CLOSE) ∈ (Transport.close s).outputs ↔ s.isConnected = true) ∧
    (Transport.close s).state = (Transport.finish s "closed" (some ConnectionErrors.closed)).state ∧
    (s.isFinished = false →
      (Transport.close s).outputs
        = (if s.isConnected then [Output.send .CLOSE] else [])
            ++ [Output.emit "closed" (some ConnectionErrors.closed)] ∧
      (Transport.close s).state.isFinished = true) := by
  refine ⟨?_, ?_, ?_⟩
  · by_cases hC : s.isConnected
    · by_cases hF : s.isFinished <;>
        simp [Transport.close, Transport.finish, hC, hF]
    · by_cases hF : s.isFinished <;>
        simp [Transport.close, Transport.finish, hC, hF]
  · simp [Transport.close]
  · intro hF
    constructor
    · simp [Transport.close, Transport.finish, hF]
    · simp [Transport.close, Transport.finish, Transport.dispose, hF]

/-- Witness for C3 (amended): a fresh connected transport sends CLOSE
and emits the closed event with the generic closed error. -/
theorem c3_close_behaviour_witness :
    ((Output.send .CLOSE) ∈
      (Transport.close { (initialState 0) with isConnected := true }).outputs) ∧
    (Transport.close { (initialState 0) with isConnected := true }).outputs
      = [Output.send .CLOSE, Output.emit "closed" (some ConnectionErrors.closed)] := by
  constructor
  · exact (c3_close_behaviour { (initialState 0) with isConnected := true }).1.mpr rfl
  · have h := ((c3_close_behaviour { (initialState 0) with isConnected := true }).2.2 rfl).1
    simpa using h

/-- C4: on-connect handling marks the transport connected and then: a
CONNECTED message without connectionDetails raises an internal fault; a
positive promised idle interval D sets maxIdleInterval to D plus the
realtime-request timeout and records activity (stamping the time and
leaving a timer pending); a zero or absent promised idle interval leaves
the idle monitor untouched. The timeout configuration is nonnegative. -/
theorem c4_onConnect (s : TransportState) (m : ProtocolMessage) (now : Int)
    (hrt : 0 ≤ s.realtimeRequestTimeout) :
    ((Transport.onConnect s m now).1.isConnected = true) ∧
    (m.connectionDetails = none →
      Transport.onConnect s m now
        = ({ s with isConnected := true },
           some "Transport.onConnect(): Connect message recieved without connectionDetails")) ∧
    (∀ cd D, m.connectionDetails = some cd → cd.maxIdleInterval = some D → 0 < D →
      (Transport.onConnect s m now).2 = none ∧
      (Transport.onConnect s m now).1.maxIdleInterval = some (D + s.realtimeRequestTimeout) ∧
      (Transport.onConnect s m now).1.lastActivity = some now ∧
      (Transport.onConnect s m now).1.cmLastActivity = some now ∧
      (Transport.onConnect s m now).1.idleTimer.isSome = true) ∧
    (∀ cd, m.connectionDetails = some cd →
      (cd.maxIdleInterval = none ∨ cd.maxIdleInterval = some 0) →
      Transport.onConnect s m now = ({ s with isConnected := true }, none)) := by
  refine ⟨?_, ?_, ?_, ?_⟩
  · unfold Transport.onConnect
    rcases m.connectionDetails with _ | cd
    · rfl
    · dsimp only
      by_cases h : cd.maxIdleInterval.getD 0 != 0
      · simp only [h, if_true]
        rw [onActivity_isConnected]
      · simp [h]
  · intro h
    simp [Transport.onConnect, h]
  · intro cd D hcd hD hpos
    have hDne : (D : Int) ≠ 0 := ne_of_gt hpos
    have hsum : 0 < D + s.realtimeRequestTimeout := by linarith
    have hsumne : D + s.realtimeRequestTimeout ≠ 0 := ne_of_gt hsum
    have hred : Transport.onConnect s m now
        = (Transport.onActivity
            { s with isConnected := true,
                     maxIdleInterval := some (D + s.realtimeRequestTimeout) } now, none) := by
      simp [Transport.onConnect, hcd, hD, hDne]
    rw [hred]
    refine ⟨rfl, ?_, ?_, ?_, ?_⟩ <;>
      simp [Transport.onActivity, Transport.setIdleTimer, optIntTruthy, hsumne] <;>
      by_cases ht : s.idleTimer = none <;> simp [ht, Option.isSome_iff_ne_none]
  · intro cd hcd hz
    rcases hz with hz | hz <;> simp [Transport.onConnect, hcd, hz]

/-- Witness for C4 at concrete messages: absent connectionDetails
faults; a promised idle interval of 5 with timeout 10 arms the monitor
at 15; a zero promised interval leaves the monitor inactive. -/
theorem c4_onConnect_witness :
    (Transport.onConnect (initialState 10) { action := .CONNECTED } 7).2.isSome = true ∧
    (Transport.onConnect (initialState 10)
        { action := .CONNECTED, connectionDetails := some ⟨some 5⟩ } 7).1.maxIdleInterval
      = some 15 ∧
    (Transport.onConnect (initialState 10)
        { action := .CONNECTED, connectionDetails := some ⟨some 0⟩ } 7)
      = ({ (initialState 10) with isConnected := true }, none) := by
  refine ⟨?_, ?_, ?_⟩
  · have h := (c4_onConnect (initialState 10) { action := .CONNECTED } 7 (by decide)).2.1 rfl
    rw [h]
    rfl
  · exact (((c4_onConnect (initialState 10)
      { action := .CONNECTED, connectionDetails := some ⟨some 5⟩ } 7 (by decide)).2.2.1
        ⟨some 5⟩ 5 rfl rfl (by decide)).2.1).trans (by decide)
  · exact (c4_onConnect (initialState 10)
      { action := .CONNECTED, connectionDetails := some ⟨some 0⟩ } 7 (by decide)).2.2.2
        ⟨some 0⟩ rfl (Or.inr rfl)

/-- C5: the idle monitor. onActivity is a no-op when maxIdleInterval is
unset; otherwise it stamps the current time as lastActivity on the
transport and on the connection manager and arms a timer for
maxIdleInterval + 100, with arming a no-op while a timer is already
pending. On expiry with the baseline set: if the elapsed time since last
activity is at least maxIdleInterval the transport disconnects with the
recoverable no-activity error (code 80003, status 408); otherwise the
timer re-arms for the remaining time plus 100. -/
theorem c5_idle_monitor (s : TransportState) (now : Int) :
    (s.maxIdleInterval = none → Transport.onActivity s now = s) ∧
    (∀ v, s.maxIdleInterval = some v → 0 < v →
      (Transport.onActivity s now).lastActivity = some now ∧
      (Transport.onActivity s now).cmLastActivity = some now ∧
      (s.idleTimer = none → (Transport.onActivity s now).idleTimer = some (v + 100)) ∧
      (∀ t, s.idleTimer = some t → (Transport.onActivity s now).idleTimer = some t)) ∧
    (∀ v la, s.maxIdleInterval = some v → 0 < v → s.lastActivity = some la → la ≠ 0 →
      (v ≤ now - la →
        Transport.onIdleTimerExpire s now
          = Transport.disconnect { s with idleTimer := none }
              (some (noActivityError (now - la))) ∧
        (noActivityError (now - la)).code = some 80003 ∧
        (noActivityError (now - la)).statusCode = some 408 ∧
        (s.isFinished = false →
          Output.emit "disconnected" (some (noActivityError (now - la)))
            ∈ (Transport.onIdleTimerExpire s now).outputs)) ∧
      (now - la < v →
        Transport.onIdleTimerExpire s now
          = ⟨{ s with idleTimer := some (v - (now - la) + 100) }, [], none⟩)) := by
  refine ⟨?_, ?_, ?_⟩
  · intro h
    simp [Transport.onActivity, optIntTruthy, h]
  · intro v hv hpos
    have hne : v ≠ 0 := ne_of_gt hpos
    have hred : Transport.onActivity s now
        = Transport.setIdleTimer
            { s with lastActivity := some now, cmLastActivity := some now } (v + 100) := by
      unfold Transport.onActivity
      rw [hv]
      simp [optIntTruthy, hne]
    refine ⟨?_, ?_, ?_, ?_⟩
    · rw [hred]; unfold Transport.setIdleTimer; dsimp only; split <;> rfl
    · rw [hred]; unfold Transport.setIdleTimer; dsimp only; split <;> rfl
    · intro ht
      rw [hred]; simp [Transport.setIdleTimer, ht]
    · intro t ht
      rw [hred]; simp [Transport.setIdleTimer, ht]
  · intro v la hv hpos hla hlane
    have hvne : v ≠ 0 := ne_of_gt hpos
    constructor
    · intro hdead
      have hrem : v - (now - la) ≤ 0 := by linarith
      have heq : Transport.onIdleTimerExpire s now
          = Transport.disconnect { s with idleTimer := none }
              (some (noActivityError (now - la))) := by
        simp [Transport.onIdleTimerExpire, optIntTruthy, hv, hvne, hla, hlane, hrem]
      refine ⟨heq, rfl, rfl, ?_⟩
      intro hF
      rw [heq]
      simp [Transport.disconnect, Transport.finish, hF]
    · intro hlive
      have hrem : ¬ (v - (now - la) ≤ 0) := by simp; linarith
      simp [Transport.onIdleTimerExpire, optIntTruthy, hv, hvne, hla, hlane, hrem,
        Transport.setIdleTimer]

/-- Witness for C5: with maxIdleInterval 20 and last activity at 1,
activity at time 1 arms the timer at 120; expiry at time 30 disconnects
with the no-activity error; expiry at time 10 re-arms at 111. -/
theorem c5_idle_monitor_witness :
    (Transport.onActivity { (initialState 0) with maxIdleInterval := some 20 } 1).idleTimer
      = some 120 ∧
    (Output.emit "disconnected" (some (noActivityError 29)) ∈
      (Transport.onIdleTimerExpire
        { (initialState 0) with maxIdleInterval := some 20, lastActivity := some 1 } 30).outputs) ∧
    (Transport.onIdleTimerExpire
        { (initialState 0) with maxIdleInterval := some 20, lastActivity := some 1 } 10).state.idleTimer
      = some 111 := by
  refine ⟨?_, ?_, ?_⟩
  · exact ((c5_idle_monitor { (initialState 0) with maxIdleInterval := some 20 } 1).2.1
      20 rfl (by decide)).2.2.1 rfl
  · exact (((c5_idle_monitor
      { (initialState 0) with maxIdleInterval := some 20, lastActivity := some 1 } 30).2.2
      20 1 rfl (by decide) rfl (by decide)).1 (by decide)).2.2.2 rfl
  · have h := (((c5_idle_monitor
      { (initialState 0) with maxIdleInterval := some 20, lastActivity := some 1 } 10).2.2
      20 1 rfl (by decide) rfl (by decide)).2 (by decide))
    rw [h]
    decide

/-! ## Reachability of transport states (for the disposed-implies-finished invariant) -/

/-- The public operations of a transport other than a direct dispose
call: connect, close, disconnect, fail, finish, ping, protocol-message
processing, and idle-timer expiry. -/
inductive TransportOp where
  | connectOp
  | closeOp
  | disconnectOp (err : Option ErrorInfo)
  | failOp (err : Option ErrorInfo)
  | finishOp (event : String) (err : Option ErrorInfo)
  | pingOp (id : Option String)
  | messageOp (m : ProtocolMessage) (now : Int)
  | idleExpireOp (now : Int)
deriving DecidableEq, Repr

/-- The state after one public operation (the state persists even when
the operation threw, as with a JS object). -/
def applyOp (o : TransportOp) (s : TransportState) : TransportState :=
  match o with
  | .connectOp => (Transport.connect s).state
  | .closeOp => (Transport.close s).state
  | .disconnectOp err => (Transport.disconnect s err).state
  | .failOp err => (Transport.fail s err).state
  | .finishOp ev err => (Transport.finish s ev err).state
  | .pingOp id => (Transport.ping s id).state
  | .messageOp m now => (Transport.onProtocolMessage s m now).state
  | .idleExpireOp now => (Transport.onIdleTimerExpire s now).state

/-- States reachable from construction by public operations, with
dispose invoked only from inside finish (never directly). -/
inductive ReachableNoDispose (rt : Int) : TransportState → Prop where
  | init : ReachableNoDispose rt (initialState rt)
  | step (o : TransportOp) (s : TransportState) :
      ReachableNoDispose rt s → ReachableNoDispose rt (applyOp o s)

theorem finish_preserves_inv (s : TransportState) (ev : String) (err : Option ErrorInfo) :
    (Transport.finish s ev err).state.isDisposed = true →
    (Transport.finish s ev err).state.isFinished = true := by
  unfold Transport.finish Transport.dispose
  by_cases hf : s.isFinished <;> simp [hf]

theorem onConnect_flags (s : TransportState) (m : ProtocolMessage) (now : Int) :
    (Transport.onConnect s m now).1.isDisposed = s.isDisposed ∧
    (Transport.onConnect s m now).1.isFinished = s.isFinished := by
  unfold Transport.onConnect
  rcases m.connectionDetails with _ | cd
  · exact ⟨rfl, rfl⟩
  · dsimp only
    by_cases h : cd.maxIdleInterval.getD 0 != 0
    · simp only [h, if_true]
      constructor
      · rw [onActivity_isDisposed]
      · rw [onActivity_isFinished]
    · simp [h]

theorem applyOp_preserves_inv (o : TransportOp) (s : TransportState)
    (h : s.isDisposed = true → s.isFinished = true) :
    (applyOp o s).isDisposed = true → (applyOp o s).isFinished = true := by
  cases o with
  | connectOp => exact h
  | closeOp => exact finish_preserves_inv s "closed" (some ConnectionErrors.closed)
  | disconnectOp err => exact finish_preserves_inv s "disconnected" _
  | failOp err => exact finish_preserves_inv s "failed" _
  | finishOp ev err => exact finish_preserves_inv s ev err
  | pingOp id => exact h
  | idleExpireOp now =>
    show (Transport.onIdleTimerExpire s now).state.isDisposed = true →
      (Transport.onIdleTimerExpire s now).state.isFinished = true
    unfold Transport.onIdleTimerExpire
    dsimp only
    split
    · exact h
    · split
      · exact finish_preserves_inv _ "disconnected" _
      · unfold Transport.setIdleTimer
        dsimp only
        split <;> exact h
  | messageOp m now =>
    show (Transport.onProtocolMessage s m now).state.isDisposed = true →
      (Transport.onProtocolMessage s m now).state.isFinished = true
    have hact : (Transport.onActivity s now).isDisposed = true →
        (Transport.onActivity s now).isFinished = true := by
      rw [onActivity_isDisposed, onActivity_isFinished]; exact h
    unfold Transport.onProtocolMessage
    dsimp only
    cases m.action with
    | HEARTBEAT => exact hact
    | CONNECTED =>
      have hc := onConnect_flags (Transport.onActivity s now) m now
      cases hco : (Transport.onConnect (Transport.onActivity s now) m now).2 with
      | none =>
        simp only [hco]
        rw [hc.1, hc.2, onActivity_isDisposed, onActivity_isFinished]
        exact h
      | some f =>
        simp only [hco]
        rw [hc.1, hc.2, onActivity_isDisposed, onActivity_isFinished]
        exact h
    | CLOSED => exact finish_preserves_inv _ "closed" _
    | DISCONNECTED => exact finish_preserves_inv _ "disconnected" _
    | ACK => exact hact
    | NACK => exact hact
    | SYNC =>
      rcases m.connectionId with _ | cid
      · exact hact
      · exact hact
    | AUTH => exact hact
    | ERROR =>
      rcases m.channel with _ | c
      · exact finish_preserves_inv _ "failed" _
      · exact hact
    | CONNECT => exact hact
    | DISCONNECT => exact hact
    | CLOSE => exact hact
    | ATTACH => exact hact
    | ATTACHED => exact hact
    | DETACH => exact hact
    | DETACHED => exact hact
    | PRESENCE => exact hact
    | MESSAGE => exact hact

/-- C6 counterexample: dispose is itself a public operation, and calling
it directly on a freshly constructed transport yields a state with
isDisposed true and isFinished false, so the claimed invariant is not
preserved by every public operation. -/
theorem c6_dispose_counterexample :
    (Transport.dispose (initialState 0)).state.isDisposed = true ∧
    (Transport.dispose (initialState 0)).state.isFinished = false := by
  exact ⟨rfl, rfl⟩

/-- C6 (amended): isDisposed implies isFinished holds in every state
reachable from construction through connect, close, disconnect, fail,
finish, ping, protocol-message processing and idle-timer expiry, with
dispose invoked only from inside finish; a direct dispose call is the
sole public operation that breaks it. -/
theorem c6_disposed_implies_finished (rt : Int) (s : TransportState)
    (hreach : ReachableNoDispose rt s) :
    s.isDisposed = true → s.isFinished = true := by
  induction hreach with
  | init => intro hd; simp [initialState] at hd
  | step o s _ ih => exact applyOp_preserves_inv o s ih

/-- Witness for C6 (amended): after a close on the freshly constructed
transport, the reached state is disposed and indeed finished. -/
theorem c6_disposed_implies_finished_witness :
    (applyOp .closeOp (initialState 0)).isFinished = true := by
  exact c6_disposed_implies_finished 0 (applyOp .closeOp (initialState 0))
    (ReachableNoDispose.step .closeOp (initialState 0) ReachableNoDispose.init) rfl

/-! ## Claims about the fallback request executor -/

/-- The packed flag an invocation delivered to the callback, when the
invocation carried a response. -/
def CallbackInvocation.packedOf : CallbackInvocation → Option Bool
  | .withResponse _ _ p _ => some p
  | _ => none

/-- C7: when no response arrives before the timeout, the timeout handler
aborts the in-flight request exactly once and the first callback
invocation carries the classified request-timed-out error with status
408; when a response arrives before the timeout fires, the timer is
disarmed. -/
theorem c7_timeout_abort (abortErr : ErrorInfo) (r : FetchResponse) :
    (fetchRequest (.timeout abortErr)).abortCount = 1 ∧
    (fetchRequest (.timeout abortErr)).callbacks.head?
      = some (.errOnly requestTimedOutError) ∧
    requestTimedOutError.message = "Request timed out" ∧
    requestTimedOutError.statusCode = some 408 ∧
    (fetchRequest (.response r)).timerDisarmedBeforeFire = true ∧
    (fetchRequest (.timeout abortErr)).timerDisarmedBeforeFire = false :=
  ⟨rfl, rfl, rfl, rfl, rfl, rfl⟩

/-- C8: a non-2xx response with the service error-code header present
and an error object embedded in the decoded body makes the callback
receive that structured error; a non-2xx response without the header
makes it receive the generic error built from the HTTP status and the
rendered body. -/
theorem c8_non2xx_errors (r : FetchResponse) (hfail : r.ok = false) :
    (∀ e, isAblyError r = true → (decodeBody r).embeddedError = some e →
      (fetchRequest (.response r)).callbacks
        = [.withResponse (some e) (decodeBody r) (packedFlag r) r.status]) ∧
    (isAblyError r = false →
      (fetchRequest (.response r)).callbacks
        = [.withResponse (some (genericServerError r)) (decodeBody r) (packedFlag r) r.status]) := by
  constructor
  · intro e hh he
    simp [fetchRequest, processResponse, getAblyError, hfail, hh, he]
  · intro hh
    simp [fetchRequest, processResponse, getAblyError, hfail, hh]

/-- The embedded error object used by the C8 witness responses. -/
def embeddedErrExample : ErrorInfo := { message := "not found", code := some 40400, statusCode := some 404 }

/-- A concrete 400 JSON response carrying the service error-code header and an embedded error object. -/
def respWithAblyErr : FetchResponse := { status := 400, contentType := some "application/json", xAblyErrorcode := some "40400", bodyError := some embeddedErrExample, bodyRender := "x" }

/-- A concrete 500 response with no error-code header and a text body. -/
def respNoAblyErr : FetchResponse := { status := 500, contentType := none, xAblyErrorcode := none, bodyError := none, bodyRender := "oops" }

/-- Witness for C8: a 400 JSON response with the error-code header
delivers the embedded error; a 500 response without the header delivers
the generic error. -/
theorem c8_non2xx_errors_witness :
    (fetchRequest (.response respWithAblyErr)).callbacks
      = [.withResponse (some embeddedErrExample) (.jsonBody (some embeddedErrExample)) true 400] ∧
    (fetchRequest (.response respNoAblyErr)).callbacks
      = [.withResponse (some (genericServerError respNoAblyErr)) (.text "oops") false 500] := by
  constructor
  · have h := (c8_non2xx_errors respWithAblyErr (by decide)).1 embeddedErrExample
      (by decide) (by decide)
    exact h.trans (by decide)
  · have h := (c8_non2xx_errors respNoAblyErr (by decide)).2 (by decide)
    exact h.trans (by decide)

/-- C9: the packed flag delivered to the callback is true exactly when a
content type was declared (a non-empty header value) and it is not the
binary-packed msgpack type: a binary-packed content type yields false, a
declared non-msgpack (JSON or opaque text) content type yields true, and
an absent content type yields false. -/
theorem c9_packed_flag (r : FetchResponse) :
    ((fetchRequest (.response r)).callbacks.map CallbackInvocation.packedOf
      = [some (packedFlag r)]) ∧
    (∀ ct, r.contentType = some ct → containsSubstr ct "application/x-msgpack" = true →
      packedFlag r = false) ∧
    (∀ ct, r.contentType = some ct → ct ≠ "" →
      containsSubstr ct "application/x-msgpack" = false → packedFlag r = true) ∧
    (r.contentType = none → packedFlag r = false) := by
  refine ⟨?_, ?_, ?_, ?_⟩
  · by_cases hok : r.ok <;>
      simp [fetchRequest, processResponse, CallbackInvocation.packedOf, hok]
  · intro ct hct hms
    simp [packedFlag, hct, hms]
  · intro ct hct hne hms
    simp [packedFlag, optStrTruthy, hct, hms, hne]
  · intro hct
    simp [packedFlag, optStrTruthy, hct]

/-- A concrete 200 msgpack response. -/
def respMsgpack : FetchResponse := { status := 200, contentType := some "application/x-msgpack", xAblyErrorcode := none, bodyError := none, bodyRender := "b" }

/-- A concrete 200 JSON response. -/
def respJson : FetchResponse := { status := 200, contentType := some "application/json", xAblyErrorcode := none, bodyError := none, bodyRender := "j" }

/-- A concrete 200 response with no declared content type. -/
def respNoCt : FetchResponse := { status := 200, contentType := none, xAblyErrorcode := none, bodyError := none, bodyRender := "t" }

/-- Witness for C9: msgpack content type gives packed false, JSON gives
packed true, absent content type gives packed false, each as delivered
to the callback. -/
theorem c9_packed_flag_witness :
    packedFlag respMsgpack = false ∧
    packedFlag respJson = true ∧
    packedFlag respNoCt = false ∧
    (fetchRequest (.response respJson)).callbacks.map CallbackInvocation.packedOf
      = [some true] := by
  refine ⟨?_, ?_, ?_, ?_⟩
  · exact (c9_packed_flag respMsgpack).2.1 "application/x-msgpack" rfl (by decide)
  · exact (c9_packed_flag respJson).2.2.1 "application/json" rfl (by decide) (by decide)
  · exact (c9_packed_flag respNoCt).2.2.2 rfl
  · exact ((c9_packed_flag respJson).1).trans (by decide)

/-- C10: when the timeout fires the callback is invoked twice, not at
most once: first by the timeout handler with the 408 timed-out error,
then by the rejection handler with the abort error produced by the
abort the timeout itself triggered. -/
theorem c10_double_callback (abortErr : ErrorInfo) :
    (fetchRequest (.timeout abortErr)).callbacks
      = [.errOnly requestTimedOutError, .errOnly abortErr] ∧
    (fetchRequest (.timeout abortErr)).callbacks.length = 2 :=
  ⟨rfl, rfl⟩
